import Mathlib

/-!
# web_utilities.h : credentials and web_proxy

A shallow embedding of `Release/include/cpprest/web_utilities.h` (namespace `web`):
the `credentials` class, the encryption classes of namespace `details` and the
`web_proxy` class, followed by the properties proved about them.

The header is compiled in one of four build variants, selected by the preprocessor.
Each `#if` of the header becomes a case distinction on `Platform`.  A C++ exception
is an `Except.error`; a member function that may throw after reading but before
writing its object returns the outcome together with the object state after the call.
-/

namespace web

/-- The text type `utility::string_t` (`std::wstring` on Windows, `std::string`
elsewhere): a sequence of code units, each given by its number.  Any sequence is a
value, the empty one and those holding the null code unit 0 included. -/
abbrev string_t := List Nat

/-- The text literal `_XPLATSTR("...")`: the code units of the characters written (one
code unit for each character of the ASCII literals used here). -/
def text (s : String) : string_t :=
  s.data.map Char.toNat

/-- The build variants of the header.

* `non_windows`   : `_MS_WINDOWS` is not defined;
* `win32`         : `_MS_WINDOWS` defined, `__cplusplus_winrt` not defined;
* `winrt`         : `_MS_WINDOWS` and `__cplusplus_winrt` defined, and not
                    (`WINAPI_FAMILY == WINAPI_FAMILY_PHONE_APP && _MSC_VER < 1800`);
* `winrt_phone80` : `_MS_WINDOWS` and `__cplusplus_winrt` defined, and
                    `WINAPI_FAMILY == WINAPI_FAMILY_PHONE_APP && _MSC_VER < 1800`
                    (Windows Phone 8.0).

The remaining combination (`_MS_WINDOWS`, no `__cplusplus_winrt`, phone family with
`_MSC_VER < 1800`) does not compile: `password()` would return a `win32_encryption`
where a `string_t` is required. -/
inductive Platform where
  | non_windows
  | win32
  | winrt
  | winrt_phone80
deriving DecidableEq

/-- Whether `_MS_WINDOWS` is defined. -/
def Platform.ms_windows : Platform → Bool
  | .non_windows => false
  | .win32 => true
  | .winrt => true
  | .winrt_phone80 => true

/-- Whether the variant compiles an encryption class in (lines 53-77 of the header):
`win32_encryption` on `win32`, `winrt_encryption` on `winrt`, none on the other two. -/
def Platform.has_encryption : Platform → Bool
  | .non_windows => false
  | .win32 => true
  | .winrt => true
  | .winrt_phone80 => false

/-- The exceptions met in this header: `std::invalid_argument` and `std::runtime_error`,
thrown by the header itself, and `encryption_failure`, the error `EncryptionFailure` of
the spec, with which the Encryption Provider reports a failed platform call. -/
inductive exception where
  | invalid_argument (what : String)
  | runtime_error (what : String)
  | encryption_failure (code : Nat)
deriving DecidableEq

namespace details

/-- The handle `plaintext_string`, a `std::unique_ptr<std::wstring, zero_memory_deleter>`,
seen through the text it points to. -/
structure plaintext_string where
  content : string_t
deriving DecidableEq

/-- Data members of `win32_encryption`: `std::vector<char> m_buffer` and
`size_t m_numCharacters`.  `none` stands for the indeterminate value the default
constructor leaves in `m_numCharacters`. -/
structure win32_encryption where
  m_buffer : List Nat
  m_numCharacters : Option Nat
deriving DecidableEq

/-- The default constructor `win32_encryption() {}`. -/
def win32_encryption.ctor_default : win32_encryption :=
  { m_buffer := [], m_numCharacters := none }

/-- Data member of `winrt_encryption`: `pplx::task<IBuffer ^> m_buffer`, seen through
the bytes of the buffer the task yields; `none` is the default-constructed task. -/
structure winrt_encryption where
  m_buffer : Option (List Nat)
deriving DecidableEq

/-- The default constructor `winrt_encryption() {}`. -/
def winrt_encryption.ctor_default : winrt_encryption :=
  { m_buffer := none }

/-- Modelled from the spec: the Encryption Provider.  The header only declares the
converting constructor `win32_encryption(const std::wstring &)` /
`winrt_encryption(const std::wstring &)` and the member `decrypt() const`; their bodies
are not part of the header.  Following the spec, `encrypt` takes a plaintext and yields
the opaque encrypted representation, `decrypt` takes that representation and yields a
plaintext handle, and either may fail when the platform call reports an error. -/
structure encryption_provider (α : Type) where
  encrypt : string_t → Except exception α
  decrypt : α → Except exception plaintext_string

/-- Modelled from the spec: the round-trip law of the Encryption Provider, "decrypt()
applied to the result of encrypt() on a given plaintext returns that exact plaintext". -/
def encryption_provider.round_trip {α : Type} (prov : encryption_provider α) : Prop :=
  ∀ (p : string_t) (b : α), prov.encrypt p = .ok b → prov.decrypt b = .ok ⟨p⟩

/-- A sample provider that does not encrypt, used to show what the encrypted-at-rest
law excludes: the buffer it builds is the plaintext itself. -/
def plain_provider : encryption_provider win32_encryption where
  encrypt := fun p => .ok { m_buffer := p, m_numCharacters := some p.length }
  decrypt := fun e => .ok ⟨e.m_buffer⟩

/-- A sample Encryption Provider whose platform call always reports an error. -/
def failing_provider (α : Type) : encryption_provider α where
  encrypt := fun _ => .error (.encryption_failure 8)
  decrypt := fun _ => .error (.encryption_failure 8)

end details

/-- The type of the data member `m_password` of `credentials` (lines 157-167):
absent without `_MS_WINDOWS`, a plain `string_t` on Windows Phone 8.0, and the
encryption class of the variant otherwise. -/
@[reducible] def password_field : Platform → Type
  | .non_windows => Unit
  | .win32 => details.win32_encryption
  | .winrt => details.winrt_encryption
  | .winrt_phone80 => string_t

/-- The default-constructed `m_password` of each variant. -/
def password_field.ctor_default : (pf : Platform) → password_field pf
  | .non_windows => ()
  | .win32 => details.win32_encryption.ctor_default
  | .winrt => details.winrt_encryption.ctor_default
  | .winrt_phone80 => []

/-- The content held in the data member `m_password`, read as a sequence of numbers so
that it can be compared with a plaintext: the bytes of `m_buffer` for `win32_encryption`,
the bytes of the buffer the task yields for `winrt_encryption`, the code units of the
text itself on Windows Phone 8.0, and nothing where the member does not exist. -/
def password_field.content : (pf : Platform) → password_field pf → Option (List Nat)
  | .non_windows, _ => none
  | .win32, e => some e.m_buffer
  | .winrt, e => e.m_buffer
  | .winrt_phone80, s => some s

/-- Modelled from the spec: the encrypted-at-rest law of the Encryption Provider, whose
bodies are not part of the header: "For all constructed Credentials with non-empty
password, the stored representation is never equal to the plaintext bytes".  The
content of what `encrypt` returns for a non-empty plaintext is not that plaintext. -/
def encrypted_at_rest (pf : Platform)
    (prov : details.encryption_provider (password_field pf)) : Prop :=
  ∀ (p : string_t) (b : password_field pf),
    p ≠ [] → prov.encrypt p = .ok b → password_field.content pf b ≠ some p

/-- The class `credentials`: `m_username` and, on Windows, `m_password`. -/
structure credentials (pf : Platform) where
  m_username : string_t
  m_password : password_field pf

/-- The constructor `credentials() {}`. -/
def credentials.ctor_default (pf : Platform) : credentials pf :=
  { m_username := [], m_password := password_field.ctor_default pf }

/-- The constructor `credentials(username, password)`: `m_username(std::move(username))`
and, only when `_MS_WINDOWS` is defined, `m_password(password)`.  On `win32` and `winrt`
the latter is the converting constructor of the encryption class; an exception it throws
leaves no object. -/
def credentials.ctor : (pf : Platform) → details.encryption_provider (password_field pf) →
    string_t → string_t → Except exception (credentials pf)
  | .non_windows, _, username, _ => .ok { m_username := username, m_password := () }
  | .win32, prov, username, password =>
      match prov.encrypt password with
      | .ok e => .ok { m_username := username, m_password := e }
      | .error x => .error x
  | .winrt, prov, username, password =>
      match prov.encrypt password with
      | .ok e => .ok { m_username := username, m_password := e }
      | .error x => .error x
  | .winrt_phone80, _, username, password =>
      .ok { m_username := username, m_password := password }

/-- The accessor `username()`. -/
def credentials.username {pf : Platform} (self : credentials pf) : string_t :=
  self.m_username

/-- The deprecated accessor `password()` (lines 119-131): throws `std::runtime_error`
without `_MS_WINDOWS`, returns `m_password` itself on Windows Phone 8.0, and a copy of
the text behind `m_password.decrypt()` otherwise. -/
def credentials.password : (pf : Platform) → details.encryption_provider (password_field pf) →
    credentials pf → Except exception string_t
  | .non_windows, _, _ =>
      .error (.runtime_error "Credentials are not supported on this platform yet.")
  | .win32, prov, self =>
      match prov.decrypt self.m_password with
      | .ok h => .ok h.content
      | .error x => .error x
  | .winrt, prov, self =>
      match prov.decrypt self.m_password with
      | .ok h => .ok h.content
      | .error x => .error x
  | .winrt_phone80, _, self => .ok self.m_password

/-- The private member `decrypt()` (lines 144-154), declared only when `_MS_WINDOWS` is
defined: a handle on a copy of `m_password` on Windows Phone 8.0, and
`m_password.decrypt()` otherwise. -/
def credentials.decrypt : (pf : Platform) → pf.ms_windows = true →
    details.encryption_provider (password_field pf) → credentials pf →
    Except exception details.plaintext_string
  | .non_windows, h, _, _ => absurd h (by decide)
  | .win32, _, prov, self => prov.decrypt self.m_password
  | .winrt, _, prov, self => prov.decrypt self.m_password
  | .winrt_phone80, _, _, self => .ok ⟨self.m_password⟩

/-- The private enumeration `web_proxy_mode_internal`, with enumerators 0, 1, 2, 3. -/
inductive web_proxy.web_proxy_mode_internal where
  | use_default_
  | use_auto_discovery_
  | disabled_
  | user_provided_
deriving DecidableEq

/-- The public enumeration `web_proxy_mode`, with its three enumerators:
`use_default = use_default_`, `use_auto_discovery = use_auto_discovery_`,
`disabled = disabled_`. -/
inductive web_proxy.web_proxy_mode where
  | use_default
  | use_auto_discovery
  | disabled
deriving DecidableEq

/-- The conversion `static_cast<web_proxy_mode_internal>(mode)`: each public enumerator is
declared equal to the internal enumerator of the same name. -/
def web_proxy.web_proxy_mode.to_internal :
    web_proxy.web_proxy_mode → web_proxy.web_proxy_mode_internal
  | .use_default => .use_default_
  | .use_auto_discovery => .use_auto_discovery_
  | .disabled => .disabled_

/-- The class `web_proxy`, with data members `m_address`, `m_mode`, `m_credentials`.
The class `web::uri` is declared outside this header and is used unmodified, so its
type is the parameter `uri`. -/
structure web_proxy (uri : Type) (pf : Platform) where
  m_address : uri
  m_mode : web_proxy.web_proxy_mode_internal
  m_credentials : credentials pf

section proxy

variable {uri : Type} {pf : Platform}

/-- The constructor `web_proxy() : m_address(_XPLATSTR("")), m_mode(use_default_) {}`.
The parameter `uri_of` is the converting constructor of `web::uri` from text;
`m_credentials` is default-constructed. -/
def web_proxy.ctor_default (uri_of : string_t → uri) (pf : Platform) : web_proxy uri pf :=
  { m_address := uri_of (text ""), m_mode := .use_default_,
    m_credentials := credentials.ctor_default pf }

/-- The constructor `web_proxy(web_proxy_mode mode)`:
`m_address(_XPLATSTR("")), m_mode(static_cast<web_proxy_mode_internal>(mode))`. -/
def web_proxy.ctor_mode (uri_of : string_t → uri) (pf : Platform)
    (mode : web_proxy.web_proxy_mode) : web_proxy uri pf :=
  { m_address := uri_of (text ""), m_mode := mode.to_internal,
    m_credentials := credentials.ctor_default pf }

/-- The constructor `web_proxy(uri address) : m_address(address), m_mode(user_provided_)`. -/
def web_proxy.ctor_address (pf : Platform) (address : uri) : web_proxy uri pf :=
  { m_address := address, m_mode := .user_provided_,
    m_credentials := credentials.ctor_default pf }

/-- The accessor `address()`. -/
def web_proxy.address (self : web_proxy uri pf) : uri :=
  self.m_address

/-- The accessor `credentials()`. -/
def web_proxy.credentials (self : web_proxy uri pf) : credentials pf :=
  self.m_credentials

/-- The member `set_credentials(cred)`: throws `std::invalid_argument` when
`m_mode == disabled_`, and otherwise assigns `m_credentials = std::move(cred)`.
The result is the outcome of the call together with the object after it. -/
def web_proxy.set_credentials (self : web_proxy uri pf) (cred : web.credentials pf) :
    Except exception Unit × web_proxy uri pf :=
  if self.m_mode = .disabled_ then
    (.error (.invalid_argument "Cannot attach credentials to a disabled proxy"), self)
  else
    (.ok (), { self with m_credentials := cred })

/-- The member `is_default()`: `m_mode == use_default_`. -/
def web_proxy.is_default (self : web_proxy uri pf) : Bool :=
  self.m_mode == .use_default_

/-- The member `is_disabled()`: `m_mode == disabled_`. -/
def web_proxy.is_disabled (self : web_proxy uri pf) : Bool :=
  self.m_mode == .disabled_

/-- The member `is_auto_discovery()`: `m_mode == use_auto_discovery_`. -/
def web_proxy.is_auto_discovery (self : web_proxy uri pf) : Bool :=
  self.m_mode == .use_auto_discovery_

/-- The member `is_specified()`: `m_mode == user_provided_`. -/
def web_proxy.is_specified (self : web_proxy uri pf) : Bool :=
  self.m_mode == .user_provided_

/-- The answers of the four mode predicates of a proxy, in the order
`is_default`, `is_disabled`, `is_auto_discovery`, `is_specified`. -/
def web_proxy.mode_predicates (self : web_proxy uri pf) : List Bool :=
  [self.is_default, self.is_disabled, self.is_auto_discovery, self.is_specified]

/-- A caller running `set_credentials` once for each element of `creds`, in order, on the
same proxy, catching the exception of a call that throws and going on. -/
def web_proxy.set_credentials_seq (self : web_proxy uri pf)
    (creds : List (web.credentials pf)) : web_proxy uri pf :=
  creds.foldl (fun w cred => (w.set_credentials cred).2) self

end proxy

/-! ## Properties of `web_proxy` -/

section proxy_theorems

variable {uri : Type} {pf : Platform}

/-- A call of `set_credentials` leaves `m_mode` as it was. -/
theorem set_credentials_keeps_mode (w : web_proxy uri pf) (cred : credentials pf) :
    (w.set_credentials cred).2.m_mode = w.m_mode := by
  unfold web_proxy.set_credentials
  split <;> rfl

/-- A call of `set_credentials` leaves `m_address` as it was. -/
theorem set_credentials_keeps_address (w : web_proxy uri pf) (cred : credentials pf) :
    (w.set_credentials cred).2.m_address = w.m_address := by
  unfold web_proxy.set_credentials
  split <;> rfl

/-- A sequence of `set_credentials` calls leaves `m_mode` as it was. -/
theorem set_credentials_seq_keeps_mode (creds : List (credentials pf))
    (w : web_proxy uri pf) : (w.set_credentials_seq creds).m_mode = w.m_mode := by
  induction creds generalizing w with
  | nil => rfl
  | cons cred rest ih =>
    show (web_proxy.set_credentials_seq (w.set_credentials cred).2 rest).m_mode = w.m_mode
    rw [ih, set_credentials_keeps_mode]

/-- Whatever its mode, a proxy answers true to exactly one of the four predicates. -/
theorem mode_predicates_count_true (w : web_proxy uri pf) :
    w.mode_predicates.count true = 1 := by
  unfold web_proxy.mode_predicates web_proxy.is_default web_proxy.is_disabled
    web_proxy.is_auto_discovery web_proxy.is_specified
  cases w.m_mode <;> decide

/-- Claim C1. On a proxy whose mode is disabled, `set_credentials(cred)` throws
`std::invalid_argument` for every `cred` and leaves the proxy as it was: the object after
the call is the object before it, so `is_disabled()` is still true and `credentials()`
is the value held before the call. -/
theorem web_proxy_set_credentials_disabled (w : web_proxy uri pf) (cred : credentials pf)
    (h : w.is_disabled = true) :
    (w.set_credentials cred).1
        = .error (.invalid_argument "Cannot attach credentials to a disabled proxy")
      ∧ (w.set_credentials cred).2 = w
      ∧ (w.set_credentials cred).2.is_disabled = true
      ∧ (w.set_credentials cred).2.credentials = w.credentials := by
  have hm : w.m_mode = .disabled_ := by
    simpa [web_proxy.is_disabled] using h
  have hs : w.set_credentials cred
      = (.error (.invalid_argument "Cannot attach credentials to a disabled proxy"), w) := by
    simp [web_proxy.set_credentials, hm]
  rw [hs]
  exact ⟨rfl, rfl, h, rfl⟩

/-- Witness for C1: a proxy built with mode `disabled` on the `win32` variant, with
the text as its own URI, given default-constructed credentials. -/
theorem web_proxy_set_credentials_disabled_witness :
    (web_proxy.ctor_mode id .win32 .disabled : web_proxy string_t .win32).is_disabled = true
      ∧ ((web_proxy.ctor_mode id .win32 .disabled : web_proxy string_t .win32).set_credentials
          (credentials.ctor_default .win32)).1
          = .error (.invalid_argument "Cannot attach credentials to a disabled proxy")
      ∧ ((web_proxy.ctor_mode id .win32 .disabled : web_proxy string_t .win32).set_credentials
          (credentials.ctor_default .win32)).2 = web_proxy.ctor_mode id .win32 .disabled
      ∧ ((web_proxy.ctor_mode id .win32 .disabled : web_proxy string_t .win32).set_credentials
          (credentials.ctor_default .win32)).2.is_disabled = true
      ∧ ((web_proxy.ctor_mode id .win32 .disabled : web_proxy string_t .win32).set_credentials
          (credentials.ctor_default .win32)).2.credentials
          = (web_proxy.ctor_mode id .win32 .disabled : web_proxy string_t .win32).credentials :=
  ⟨rfl, web_proxy_set_credentials_disabled (web_proxy.ctor_mode id .win32 .disabled)
    (credentials.ctor_default .win32) rfl⟩

/-- Claim C2. A proxy built by any of the three constructors (default, mode, explicit
address) and then subjected to any sequence of `set_credentials` calls answers true to
exactly one of `is_default()`, `is_disabled()`, `is_auto_discovery()`, `is_specified()`. -/
theorem web_proxy_exactly_one_mode_predicate (uri_of : string_t → uri) (pf : Platform)
    (creds : List (credentials pf)) :
    (((web_proxy.ctor_default uri_of pf).set_credentials_seq creds).mode_predicates.count true
        = 1)
      ∧ (∀ mode : web_proxy.web_proxy_mode,
          ((web_proxy.ctor_mode uri_of pf mode).set_credentials_seq creds).mode_predicates.count
            true = 1)
      ∧ (∀ address : uri,
          ((web_proxy.ctor_address pf address).set_credentials_seq creds).mode_predicates.count
            true = 1) :=
  ⟨mode_predicates_count_true _, fun _ => mode_predicates_count_true _,
    fun _ => mode_predicates_count_true _⟩

/-- Claim C4. On a proxy whose mode is not disabled, `set_credentials(cred)` returns
normally and `credentials()` is then `cred`; a second call with `cred2` also returns
normally and `credentials()` is then `cred2`. -/
theorem web_proxy_set_credentials_last_wins (w : web_proxy uri pf)
    (cred cred2 : credentials pf) (h : w.is_disabled = false) :
    (w.set_credentials cred).1 = .ok ()
      ∧ (w.set_credentials cred).2.credentials = cred
      ∧ ((w.set_credentials cred).2.set_credentials cred2).1 = .ok ()
      ∧ ((w.set_credentials cred).2.set_credentials cred2).2.credentials = cred2 := by
  have hm : w.m_mode ≠ .disabled_ := by
    simpa [web_proxy.is_disabled] using h
  have hs : w.set_credentials cred = (.ok (), { w with m_credentials := cred }) := by
    simp [web_proxy.set_credentials, hm]
  have hs2 : (w.set_credentials cred).2.set_credentials cred2
      = (.ok (), { w with m_credentials := cred2 }) := by
    rw [hs]
    simp [web_proxy.set_credentials, hm]
  rw [hs2, hs]
  exact ⟨rfl, rfl, rfl, rfl⟩

/-- Witness for C4: the proxy built for the address "http://proxy.example:8080" on the
Windows Phone 8.0 variant, with the text as its own URI, given the credentials of "alice"
and then those of "bob". -/
theorem web_proxy_set_credentials_last_wins_witness :
    (web_proxy.ctor_address .winrt_phone80 (text "http://proxy.example:8080")).is_disabled
        = false
      ∧ ((web_proxy.ctor_address .winrt_phone80 (text "http://proxy.example:8080")
          ).set_credentials { m_username := text "alice", m_password := text "s3cret" }).1
          = .ok ()
      ∧ ((web_proxy.ctor_address .winrt_phone80 (text "http://proxy.example:8080")
          ).set_credentials
            { m_username := text "alice", m_password := text "s3cret" }).2.credentials
          = { m_username := text "alice", m_password := text "s3cret" }
      ∧ (((web_proxy.ctor_address .winrt_phone80 (text "http://proxy.example:8080")
          ).set_credentials
            { m_username := text "alice", m_password := text "s3cret" }).2.set_credentials
            { m_username := text "bob", m_password := text "" }).1 = .ok ()
      ∧ (((web_proxy.ctor_address .winrt_phone80 (text "http://proxy.example:8080")
          ).set_credentials
            { m_username := text "alice", m_password := text "s3cret" }).2.set_credentials
            { m_username := text "bob", m_password := text "" }).2.credentials
          = { m_username := text "bob", m_password := text "" } :=
  ⟨rfl,
    web_proxy_set_credentials_last_wins
      (web_proxy.ctor_address .winrt_phone80 (text "http://proxy.example:8080"))
      { m_username := text "alice", m_password := text "s3cret" }
      { m_username := text "bob", m_password := text "" } rfl⟩

/-- Claim C5. Each constructor yields the mode it names and the address it is given:
`web_proxy(a)` is specified with address `a`; `web_proxy()` is default; `web_proxy(m)`
answers true to the predicate matching `m`; and in the non-explicit cases the address is
the URI built from the empty text. -/
theorem web_proxy_constructors (uri_of : string_t → uri) (pf : Platform) :
    (∀ a : uri, (web_proxy.ctor_address pf a).is_specified = true
        ∧ (web_proxy.ctor_address pf a).address = a)
      ∧ ((web_proxy.ctor_default uri_of pf).is_default = true
        ∧ (web_proxy.ctor_default uri_of pf).address = uri_of (text ""))
      ∧ ((web_proxy.ctor_mode uri_of pf .use_default).is_default = true
        ∧ (web_proxy.ctor_mode uri_of pf .use_default).address = uri_of (text ""))
      ∧ ((web_proxy.ctor_mode uri_of pf .use_auto_discovery).is_auto_discovery = true
        ∧ (web_proxy.ctor_mode uri_of pf .use_auto_discovery).address = uri_of (text ""))
      ∧ ((web_proxy.ctor_mode uri_of pf .disabled).is_disabled = true
        ∧ (web_proxy.ctor_mode uri_of pf .disabled).address = uri_of (text "")) :=
  ⟨fun _ => ⟨rfl, rfl⟩, ⟨rfl, rfl⟩, ⟨rfl, rfl⟩, ⟨rfl, rfl⟩, ⟨rfl, rfl⟩⟩

/-- Claim C10. Whether it returns or throws, `set_credentials` changes neither the mode
nor the address: the four mode predicates and `address()` answer after the call what they
answered before it. -/
theorem web_proxy_set_credentials_frame (w : web_proxy uri pf) (cred : credentials pf) :
    (w.set_credentials cred).2.is_default = w.is_default
      ∧ (w.set_credentials cred).2.is_disabled = w.is_disabled
      ∧ (w.set_credentials cred).2.is_auto_discovery = w.is_auto_discovery
      ∧ (w.set_credentials cred).2.is_specified = w.is_specified
      ∧ (w.set_credentials cred).2.address = w.address := by
  simp only [web_proxy.is_default, web_proxy.is_disabled, web_proxy.is_auto_discovery,
    web_proxy.is_specified, web_proxy.address, set_credentials_keeps_mode,
    set_credentials_keeps_address, and_self]

end proxy_theorems

/-! ## Properties of `credentials` -/

section credentials_theorems

open details

/-- The constructor `credentials(username, password)` returns an object exactly when the
encryption of the password, on the variants that encrypt, does not throw. -/
theorem ctor_ok_iff (pf : Platform) (prov : encryption_provider (password_field pf))
    (u p : string_t) :
    (∃ c, credentials.ctor pf prov u p = .ok c)
      ↔ (pf.has_encryption = true → ∃ e, prov.encrypt p = .ok e) := by
  cases pf
  · simp [credentials.ctor, Platform.has_encryption]
  · simp only [credentials.ctor, Platform.has_encryption, true_implies]
    cases prov.encrypt p <;> simp
  · simp only [credentials.ctor, Platform.has_encryption, true_implies]
    cases prov.encrypt p <;> simp
  · simp [credentials.ctor, Platform.has_encryption]

/-- Counterexample to C6 as stated: the Windows Phone 8.0 variant has no encryption
class, and there `password()` on `credentials("alice", "s3cret")` does not throw but
returns the plaintext "s3cret" held in `m_password`. -/
theorem credentials_password_phone80_returns_plaintext :
    Platform.has_encryption .winrt_phone80 = false
      ∧ credentials.ctor .winrt_phone80 (failing_provider string_t) (text "alice")
          (text "s3cret") = .ok { m_username := text "alice", m_password := text "s3cret" }
      ∧ credentials.password .winrt_phone80 (failing_provider string_t)
          { m_username := text "alice", m_password := text "s3cret" } = .ok (text "s3cret")
      ∧ ¬ ∃ x, credentials.password .winrt_phone80 (failing_provider string_t)
          { m_username := text "alice", m_password := text "s3cret" } = .error x := by
  refine ⟨rfl, rfl, rfl, ?_⟩
  rintro ⟨x, hx⟩
  cases hx

/-- Claim C6, amended. The variants without an encryption class are the non-Windows one
and Windows Phone 8.0.  On the first, `password()` throws `std::runtime_error` for every
credentials value; on the second it returns the text held in `m_password`. -/
theorem credentials_password_without_encryption :
    (∀ pf : Platform, pf.has_encryption = false ↔ (pf = .non_windows ∨ pf = .winrt_phone80))
      ∧ (∀ (prov : encryption_provider (password_field .non_windows))
          (c : credentials .non_windows),
          credentials.password .non_windows prov c
            = .error (.runtime_error "Credentials are not supported on this platform yet."))
      ∧ (∀ (prov : encryption_provider (password_field .winrt_phone80))
          (c : credentials .winrt_phone80),
          credentials.password .winrt_phone80 prov c = .ok c.m_password) := by
  refine ⟨?_, fun _ _ => rfl, fun _ _ => rfl⟩
  intro pf
  cases pf <;> simp [Platform.has_encryption]

/-- The sample provider `plain_provider` obeys the round-trip law but breaks the
encrypted-at-rest law. -/
theorem plain_provider_not_encrypted_at_rest :
    plain_provider.round_trip ∧ ¬ encrypted_at_rest .win32 plain_provider := by
  constructor
  · intro p b h
    simp only [plain_provider, Except.ok.injEq] at h
    subst h
    rfl
  · intro hlaw
    exact hlaw [115] { m_buffer := [115], m_numCharacters := some 1 } (by decide) rfl rfl

end credentials_theorems

end web
